import Mathlib

/-!
Verification of the CorsaScore core (src/app.py) against its specification.

The embedding models the two core components:

* the Score Engine, `process_running_file_from_data` (src/app.py lines
  276-370): a pure function from a canonical session record plus athlete
  parameters to an optional score result;
* the stream half of the Session Normalizer, `process_strava_activity`
  (src/app.py lines 230-247): the construction of power samples and
  synthetic R-R intervals from the three parallel activity streams.

Python floats are modelled by exact rationals (`ℚ`); the one irrational
operation, `np.sqrt`, is modelled by `Real.sqrt`, so the quantities built
from it (`d_penalty`, `score`) live in `ℝ`.  Lean convention `x / 0 = 0`
stands in for the guarded divisions; every division in the source is either
guarded by the code itself or hits this convention only where numpy would
produce NaN that the code then compares with `>` (comparisons with NaN are
false, just as `0 > 0` is).  Python's `round` is round-half-to-even, which
`roundHalfEven` reproduces on exact values; `int(...)` truncates toward
zero, which `pyInt` reproduces.  The `date` field of the result row is
dropped: no analysed property mentions it.  The sidebar globals `weight`,
`hr_rest`, `hr_max`, `base_offset` (src/app.py lines 30-33) are passed as
an explicit parameter record, as the specification's `AthleteParameters`.
-/

namespace Corsa

/-- Athlete parameters, the sidebar globals of src/app.py lines 30-33. -/
structure AthleteParams where
  weight : ℚ
  hr_rest : ℚ
  hr_max : ℚ
  base_offset : ℚ

/-- A canonical session record as consumed by `process_running_file_from_data`:
the header fields it reads, the per-tick samples (each optionally carrying a
`Power` key, hence `Option ℚ`), and the raw `R-R → Data` list. -/
structure SessionData where
  ascent : ℚ
  distance : ℚ
  duration_sec : ℚ
  samples : List (Option ℚ)
  rr_raw : List ℚ

/-- `np.mean` on a list of rationals.  On `[]` this is `0 / 0 = 0`; numpy
would give NaN there — see the module comment. -/
def mean (l : List ℚ) : ℚ := l.sum / (l.length : ℚ)

/-- `t_hours = duration_sec / 3600` (src/app.py line 289). -/
def t_hours (s : SessionData) : ℚ := s.duration_sec / 3600

/-- `grade = ascent / distance if distance > 0 else 0` (line 292). -/
def grade (s : SessionData) : ℚ := if s.distance > 0 then s.ascent / s.distance else 0

/-- `power_samples = [s['Power'] for s in samples if 'Power' in s]` (line 296). -/
def power_samples (s : SessionData) : List ℚ := s.samples.filterMap id

/-- `avg_power = np.mean(power_samples)` (line 301). -/
def avg_power (s : SessionData) : ℚ := mean (power_samples s)

/-- `watt_adj = avg_power * (1 + grade)` (line 303). -/
def watt_adj (s : SessionData) : ℚ := avg_power s * (1 + grade s)

/-- `rr_data = [r for r in rr_data if r > 0]` (line 307). -/
def rr_data (s : SessionData) : List ℚ := s.rr_raw.filter (fun r => r > 0)

/-- `avg_hr = 60000 / np.mean(rr_data)` (line 312). -/
def avg_hr (s : SessionData) : ℚ := 60000 / mean (rr_data s)

/-- `hrr_range = hr_max - hr_rest` (line 315). -/
def hrr_range (p : AthleteParams) : ℚ := p.hr_max - p.hr_rest

/-- `hrr_pct = (avg_hr - hr_rest) / hrr_range if hrr_range > 0 else 0` (line 316). -/
def hrr_pct (s : SessionData) (p : AthleteParams) : ℚ :=
  if hrr_range p > 0 then (avg_hr s - p.hr_rest) / hrr_range p else 0

/-- `mid_time_ms = sum(rr_data) / 2` (line 320). -/
def mid_time_ms (s : SessionData) : ℚ := (rr_data s).sum / 2

/-- The split loop of lines 321-330: `curr` is the running clock, each
interval goes to the first half when `curr < mid` held before adding it. -/
def splitRR (mid : ℚ) : ℚ → List ℚ → List ℚ × List ℚ
  | _, [] => ([], [])
  | curr, r :: rs =>
    let rest := splitRR mid (curr + r) rs
    if curr < mid then (r :: rest.1, rest.2) else (rest.1, r :: rest.2)

/-- `h1_rr` after the loop of lines 321-330. -/
def h1_rr (s : SessionData) : List ℚ := (splitRR (mid_time_ms s) 0 (rr_data s)).1

/-- `h2_rr` after the loop of lines 321-330. -/
def h2_rr (s : SessionData) : List ℚ := (splitRR (mid_time_ms s) 0 (rr_data s)).2

/-- `hr1 = 60000 / np.mean(h1_rr) if h1_rr else avg_hr` (line 332). -/
def hr1 (s : SessionData) : ℚ :=
  if h1_rr s ≠ [] then 60000 / mean (h1_rr s) else avg_hr s

/-- `hr2 = 60000 / np.mean(h2_rr) if h2_rr else avg_hr` (line 333). -/
def hr2 (s : SessionData) : ℚ :=
  if h2_rr s ≠ [] then 60000 / mean (h2_rr s) else avg_hr s

/-- `mid_p = len(power_samples) // 2` (line 336), natural floor division. -/
def mid_p (s : SessionData) : ℕ := (power_samples s).length / 2

/-- `p1 = np.mean(power_samples[:mid_p]) if power_samples else 0` (line 337).
The condition is on `power_samples` itself, not on the slice: a singleton
power list gives `np.mean([])` here, numpy's NaN, modelled as `0` — both
make every later `>` comparison false. -/
def p1 (s : SessionData) : ℚ :=
  if power_samples s ≠ [] then mean ((power_samples s).take (mid_p s)) else 0

/-- `p2 = np.mean(power_samples[mid_p:]) if power_samples else 0` (line 338). -/
def p2 (s : SessionData) : ℚ :=
  if power_samples s ≠ [] then mean ((power_samples s).drop (mid_p s)) else 0

/-- `ef1 = p1 / hr1 if hr1 > 0 else 0` (line 341). -/
def ef1 (s : SessionData) : ℚ := if hr1 s > 0 then p1 s / hr1 s else 0

/-- `ef2 = p2 / hr2 if hr2 > 0 else 0` (line 342). -/
def ef2 (s : SessionData) : ℚ := if hr2 s > 0 then p2 s / hr2 s else 0

/-- `decoupling = (ef1 - ef2) / ef1 if ef1 > 0 else 0` (line 345). -/
def decoupling (s : SessionData) : ℚ :=
  if ef1 s > 0 then (ef1 s - ef2 s) / ef1 s else 0

/-- `w_kg = watt_adj / weight` (line 349). -/
def w_kg (s : SessionData) (p : AthleteParams) : ℚ := watt_adj s / p.weight

/-- `efficiency_ratio = w_kg / hrr_pct if hrr_pct > 0 else 0` (line 350);
named `eff_per_hrr` here. -/
def eff_per_hrr (s : SessionData) (p : AthleteParams) : ℚ :=
  if hrr_pct s p > 0 then w_kg s p / hrr_pct s p else 0

/-- `d_penalty = decoupling / np.sqrt(t_hours) if t_hours > 0 else 0`
(line 354); real-valued because of the square root. -/
noncomputable def d_penalty (s : SessionData) : ℝ :=
  if t_hours s > 0 then (decoupling s : ℝ) / Real.sqrt (t_hours s : ℝ) else 0

/-- `score = (efficiency_ratio - base_offset) * (1 - d_penalty)` (line 357). -/
noncomputable def score (s : SessionData) (p : AthleteParams) : ℝ :=
  ((eff_per_hrr s p : ℝ) - (p.base_offset : ℝ)) * (1 - d_penalty s)

/-- Python's `round` to an integer: round half to even. -/
def roundHalfEven (q : ℚ) : ℤ :=
  if q - ⌊q⌋ < 1/2 then ⌊q⌋
  else if 1/2 < q - ⌊q⌋ then ⌊q⌋ + 1
  else if ⌊q⌋ % 2 = 0 then ⌊q⌋ else ⌊q⌋ + 1

/-- Python's `round(x, n)` on an exact rational value. -/
def pyRound (n : ℕ) (q : ℚ) : ℚ :=
  (roundHalfEven (q * 10 ^ n) : ℚ) / 10 ^ n

/-- Python's `round` to an integer on a real value (round half to even). -/
noncomputable def roundHalfEvenR (x : ℝ) : ℤ :=
  if x - ⌊x⌋ < 1/2 then ⌊x⌋
  else if 1/2 < x - ⌊x⌋ then ⌊x⌋ + 1
  else if ⌊x⌋ % 2 = 0 then ⌊x⌋ else ⌊x⌋ + 1

/-- Python's `round(x, n)` on an exact real value. -/
noncomputable def pyRoundR (n : ℕ) (x : ℝ) : ℝ :=
  (roundHalfEvenR (x * 10 ^ n) : ℝ) / 10 ^ n

/-- The result row built at src/app.py lines 359-367 (the `date` field is
dropped; `HRRpct` is the `"%HRR"` key, `SCORE_2` the `"SCORE_2"` key). -/
structure ScoreResult where
  Watt_Adj : ℚ
  HR_Avg : ℚ
  HRRpct : ℚ
  Decoupling : ℚ
  SCORE_2 : ℝ
  Duration_Min : ℚ

/-- `process_running_file_from_data` (src/app.py lines 276-370): the two
`return None` guards of lines 298-299 and 309-310, then the result row. -/
noncomputable def process_running_file_from_data (s : SessionData) (p : AthleteParams) :
    Option ScoreResult :=
  if power_samples s = [] then none
  else if rr_data s = [] then none
  else some
    { Watt_Adj := pyRound 1 (watt_adj s)
      HR_Avg := pyRound 1 (avg_hr s)
      HRRpct := pyRound 1 (hrr_pct s p * 100)
      Decoupling := pyRound 2 (decoupling s * 100)
      SCORE_2 := pyRoundR 3 (score s p)
      Duration_Min := pyRound 0 (s.duration_sec / 60) }

/-- The three parallel activity streams read at src/app.py lines 230-232. -/
structure StravaStreams where
  time : List ℚ
  watts : List ℚ
  heartrate : List ℚ

/-- `min_length = min(len(time_stream), len(power_data), len(hr_data))`
(line 235). -/
def min_length (st : StravaStreams) : ℕ :=
  min (min st.time.length st.watts.length) st.heartrate.length

/-- Python's `int(...)` on an exact rational: truncation toward zero. -/
def pyInt (q : ℚ) : ℤ := if 0 ≤ q then ⌊q⌋ else ⌈q⌉

/-- The samples loop of lines 237-239: for `i in range(min_length)` append
`{'Power': power_data[i]}` (the inner `i < len(power_data)` guard is always
true since `min_length ≤ len(power_data)`). -/
def strava_samples (st : StravaStreams) : List (Option ℚ) :=
  (st.watts.take (min_length st)).map some

/-- The R-R loop of lines 242-247: for `i in range(1, min_length)` append
`int(1000.0 / ((hr_data[i-1] + hr_data[i]) / 2 / 60))` (the inner
`i < len(hr_data)` guard is always true). -/
def strava_rr (st : StravaStreams) : List ℚ :=
  (List.range' 1 (min_length st - 1)).map fun i =>
    ((pyInt (1000 / ((st.heartrate.getD (i - 1) 0 + st.heartrate.getD i 0) / 2 / 60)) : ℤ) : ℚ)

/-- Spec-side first half (§4.2 step 5 of the spec, as phrased by the claim):
the intervals, in order, whose running sum of all earlier intervals is
strictly below `mid`. -/
def specFirstHalf (mid : ℚ) (l : List ℚ) : List ℚ :=
  (l.enum.filter fun q => decide ((l.take q.1).sum < mid)).map Prod.snd

/-- Spec-side second half: the intervals whose running sum of earlier
intervals is not strictly below `mid`. -/
def specSecondHalf (mid : ℚ) (l : List ℚ) : List ℚ :=
  (l.enum.filter fun q => decide (¬ (l.take q.1).sum < mid)).map Prod.snd

/-- The split loop refines the indexed description: starting the clock at
`c`, the element at offset `i` (enumerated from `n`) lands in the first
half exactly when `c` plus the sum of the earlier elements is below `mid`. -/
lemma splitRR_eq_filter (mid : ℚ) :
    ∀ (l : List ℚ) (c : ℚ) (n : ℕ),
      splitRR mid c l =
        (((List.enumFrom n l).filter fun q =>
            decide (c + (l.take (q.1 - n)).sum < mid)).map Prod.snd,
         ((List.enumFrom n l).filter fun q =>
            decide (¬ c + (l.take (q.1 - n)).sum < mid)).map Prod.snd)
  | [], c, n => by simp [splitRR]
  | r :: rs, c, n => by
    have IH := splitRR_eq_filter mid rs (c + r) (n + 1)
    have hcons : List.enumFrom n (r :: rs) = (n, r) :: List.enumFrom (n + 1) rs := rfl
    have htail : ∀ q ∈ List.enumFrom (n + 1) rs,
        (c + ((r :: rs).take (q.1 - n)).sum < mid) ↔
        ((c + r) + (rs.take (q.1 - (n + 1))).sum < mid) := by
      intro q hq
      have hn : n + 1 ≤ q.1 := List.le_fst_of_mem_enumFrom hq
      have hsub : q.1 - n = (q.1 - (n + 1)) + 1 := by omega
      rw [hsub, List.take_succ_cons, List.sum_cons, ← add_assoc]
    have hcong1 : ((List.enumFrom (n + 1) rs).filter fun q =>
          decide (c + ((r :: rs).take (q.1 - n)).sum < mid)) =
        ((List.enumFrom (n + 1) rs).filter fun q =>
          decide ((c + r) + (rs.take (q.1 - (n + 1))).sum < mid)) := by
      apply List.filter_congr
      intro q hq
      simp only [decide_eq_decide]
      exact htail q hq
    have hcong2 : ((List.enumFrom (n + 1) rs).filter fun q =>
          decide (¬ c + ((r :: rs).take (q.1 - n)).sum < mid)) =
        ((List.enumFrom (n + 1) rs).filter fun q =>
          decide (¬ (c + r) + (rs.take (q.1 - (n + 1))).sum < mid)) := by
      apply List.filter_congr
      intro q hq
      simp only [decide_eq_decide]
      exact not_congr (htail q hq)
    have hhead : ((r :: rs).take (n - n)).sum = 0 := by
      simp [Nat.sub_self]
    rw [splitRR, hcons, List.filter_cons, List.filter_cons, hcong1, hcong2, IH]
    by_cases hc : c < mid
    · simp [hhead, hc]
    · simp [hhead, hc]

/-- The loop output `h1_rr` is exactly the spec-side first half. -/
lemma h1_rr_eq_spec (s : SessionData) :
    h1_rr s = specFirstHalf (mid_time_ms s) (rr_data s) := by
  have h := splitRR_eq_filter (mid_time_ms s) (rr_data s) 0 0
  rw [h1_rr, h, specFirstHalf]
  dsimp only
  congr 1
  apply List.filter_congr
  intro q _
  simp only [decide_eq_decide, Nat.sub_zero, zero_add]

/-- The loop output `h2_rr` is exactly the spec-side second half. -/
lemma h2_rr_eq_spec (s : SessionData) :
    h2_rr s = specSecondHalf (mid_time_ms s) (rr_data s) := by
  have h := splitRR_eq_filter (mid_time_ms s) (rr_data s) 0 0
  rw [h2_rr, h, specSecondHalf]
  dsimp only
  congr 1
  apply List.filter_congr
  intro q _
  simp only [decide_eq_decide, Nat.sub_zero, zero_add]

/-- The real-valued half-even rounding agrees with the rational one on
rational values. -/
lemma roundHalfEvenR_ratCast (q : ℚ) : roundHalfEvenR (q : ℝ) = roundHalfEven q := by
  have hcast : (q : ℝ) - ((⌊q⌋ : ℤ) : ℝ) = ((q - (⌊q⌋ : ℤ) : ℚ) : ℝ) := by
    push_cast
    ring
  have hhalf : ((1 : ℝ) / 2) = (((1 : ℚ) / 2 : ℚ) : ℝ) := by norm_num
  have hA : ((q : ℝ) - ((⌊q⌋ : ℤ) : ℝ) < 1 / 2) ↔ (q - (⌊q⌋ : ℤ) < 1 / 2) := by
    rw [hcast, hhalf]
    exact Rat.cast_lt
  have hB : ((1 : ℝ) / 2 < (q : ℝ) - ((⌊q⌋ : ℤ) : ℝ)) ↔ ((1 : ℚ) / 2 < q - (⌊q⌋ : ℤ)) := by
    rw [hcast, hhalf]
    exact Rat.cast_lt
  rw [roundHalfEvenR, roundHalfEven, Rat.floor_cast]
  simp only [hA, hB]

/-- `pyRoundR` agrees with `pyRound` on rational values. -/
lemma pyRoundR_ratCast (n : ℕ) (q : ℚ) :
    pyRoundR n (q : ℝ) = ((pyRound n q : ℚ) : ℝ) := by
  have h : (q : ℝ) * 10 ^ n = ((q * 10 ^ n : ℚ) : ℝ) := by push_cast; ring
  rw [pyRoundR, pyRound, h, roundHalfEvenR_ratCast]
  push_cast
  ring

/-- Scenario-A athlete parameters: weight 70, rest 60, max 180, offset 2. -/
def paramsA : AthleteParams := ⟨70, 60, 180, 2⟩

/-- Scenario-A session: constant power 200 W, constant beat interval
500 ms, no distance or ascent, one hour. -/
def sessA : SessionData :=
  ⟨0, 0, 3600, [some 200, some 200, some 200, some 200],
   [500, 500, 500, 500, 500, 500, 500, 500]⟩

/-- A drifting session: constant power, heart rate rises in the second
half (intervals shrink from 500 ms to 400 ms). -/
def sessDrift : SessionData :=
  ⟨0, 0, 3600, [some 100, some 100, some 100, some 100], [500, 500, 400, 400]⟩

/-- The reverse session: heart rate falls in the second half. -/
def sessRev : SessionData :=
  ⟨0, 0, 3600, [some 100, some 100, some 100, some 100], [400, 400, 500, 500]⟩

/-- A session with exactly one power sample. -/
def sessOne : SessionData := ⟨0, 0, 3600, [some 150], [500, 500]⟩

/-- A session with no power samples at all. -/
def sessNoP : SessionData := ⟨0, 0, 3600, [], [500]⟩

/-- A 90-second session: `duration/60 = 1.5` min, whose 0-decimal and
1-decimal roundings differ. -/
def sessDur : SessionData := ⟨0, 0, 90, [some 200, some 200], [500, 500]⟩

/-- Athlete parameters with a degenerate reserve range (`hr_max = hr_rest`). -/
def paramsDeg : AthleteParams := ⟨70, 100, 100, 2⟩

/-- Athlete parameters whose resting heart rate exceeds Scenario A's
average heart rate of 120. -/
def paramsLow : AthleteParams := ⟨70, 150, 190, 2⟩

/-- Two-point activity streams whose adjacent heart-rate average has a
non-integer synthetic interval. -/
def stC2 : StravaStreams := ⟨[0, 1], [100, 100], [120, 121]⟩

/-- C4: a session with no power samples, or whose raw beat intervals are
all non-positive (so the filtered list is empty), yields `none` — an
explicit absence of result rather than an exception or a garbage score. -/
theorem claim_C4 (s : SessionData) (p : AthleteParams)
    (h : power_samples s = [] ∨ ∀ r ∈ s.rr_raw, r ≤ 0) :
    process_running_file_from_data s p = none := by
  rw [process_running_file_from_data]
  rcases h with h | h
  · rw [if_pos h]
  · by_cases h1 : power_samples s = []
    · rw [if_pos h1]
    · rw [if_neg h1, if_pos ?_]
      rw [rr_data, List.filter_eq_nil_iff]
      intro a ha
      simpa using not_lt.mpr (h a ha)

/-- Witness for C4 at a concrete empty-power session. -/
theorem claim_C4_witness : process_running_file_from_data sessNoP paramsA = none :=
  claim_C4 sessNoP paramsA (Or.inl rfl)

/-- C5: the heart-rate half split assigns an interval to the first half
exactly when the running sum of all earlier intervals is strictly below
half the total interval sum (`mid_time_ms`), otherwise to the second half;
each half's HR is `60000 / mean` of that half, an empty half falling back
to `avg_hr`. -/
theorem claim_C5 (s : SessionData) (_h : rr_data s ≠ []) :
    h1_rr s = specFirstHalf (mid_time_ms s) (rr_data s) ∧
    h2_rr s = specSecondHalf (mid_time_ms s) (rr_data s) ∧
    hr1 s = (if h1_rr s ≠ [] then 60000 / mean (h1_rr s) else avg_hr s) ∧
    hr2 s = (if h2_rr s ≠ [] then 60000 / mean (h2_rr s) else avg_hr s) :=
  ⟨h1_rr_eq_spec s, h2_rr_eq_spec s, rfl, rfl⟩

/-- Witness for C5 at the Scenario-A session. -/
theorem claim_C5_witness :
    h1_rr sessA = specFirstHalf (mid_time_ms sessA) (rr_data sessA) ∧
    h2_rr sessA = specSecondHalf (mid_time_ms sessA) (rr_data sessA) ∧
    hr1 sessA = (if h1_rr sessA ≠ [] then 60000 / mean (h1_rr sessA) else avg_hr sessA) ∧
    hr2 sessA = (if h2_rr sessA ≠ [] then 60000 / mean (h2_rr sessA) else avg_hr sessA) :=
  claim_C5 sessA (by decide)

/-- C6: `hrr_pct` is `(avg_hr - hr_rest) / hrr_range` when the range is
positive and `0` otherwise; it is not clamped to `[0,1]` (below-rest HR
gives a negative value, above-max HR a value above 1), and a degenerate
range `hr_max = hr_rest` gives `hrr_pct = 0` and a zero efficiency ratio
with no division fault. -/
theorem claim_C6 (s : SessionData) (p : AthleteParams) :
    (hrr_pct s p = if hrr_range p > 0 then (avg_hr s - p.hr_rest) / hrr_range p else 0) ∧
    (hrr_range p > 0 → avg_hr s < p.hr_rest → hrr_pct s p < 0) ∧
    (hrr_range p > 0 → p.hr_max < avg_hr s → 1 < hrr_pct s p) ∧
    (p.hr_max = p.hr_rest → hrr_pct s p = 0 ∧ eff_per_hrr s p = 0) := by
  refine ⟨rfl, ?_, ?_, ?_⟩
  · intro h1 h2
    rw [hrr_pct, if_pos h1]
    exact div_neg_of_neg_of_pos (by linarith) h1
  · intro h1 h2
    rw [hrr_pct, if_pos h1, lt_div_iff₀ h1]
    have h3 : hrr_range p = p.hr_max - p.hr_rest := rfl
    linarith
  · intro h
    have h0 : ¬ hrr_range p > 0 := by
      rw [hrr_range, h]
      simp
    have hz : hrr_pct s p = 0 := by rw [hrr_pct, if_neg h0]
    refine ⟨hz, ?_⟩
    rw [eff_per_hrr, hz]
    simp

/-- Witness for C6: a below-rest heart rate gives a negative `hrr_pct`,
and a degenerate reserve range gives zero `hrr_pct` and efficiency ratio. -/
theorem claim_C6_witness :
    hrr_pct sessA paramsLow < 0 ∧ hrr_pct sessA paramsDeg = 0 ∧ eff_per_hrr sessA paramsDeg = 0 :=
  ⟨(claim_C6 sessA paramsLow).2.1 (by norm_num [hrr_range, paramsLow])
      (by norm_num [avg_hr, mean, rr_data, sessA, paramsLow, List.filter_cons]),
   ((claim_C6 sessA paramsDeg).2.2.2 rfl).1,
   ((claim_C6 sessA paramsDeg).2.2.2 rfl).2⟩

/-- C8: decoupling is `(EF1 - EF2) / EF1` when `EF1 > 0` (else 0); with
`EF1 > 0`, a lower second-half efficiency factor gives positive decoupling
and a higher one gives negative decoupling. -/
theorem claim_C8 (s : SessionData) :
    (decoupling s = if ef1 s > 0 then (ef1 s - ef2 s) / ef1 s else 0) ∧
    (ef1 s > 0 → ef2 s < ef1 s → 0 < decoupling s) ∧
    (ef1 s > 0 → ef1 s < ef2 s → decoupling s < 0) := by
  refine ⟨rfl, ?_, ?_⟩
  · intro h1 h2
    rw [decoupling, if_pos h1]
    exact div_pos (by linarith) h1
  · intro h1 h2
    rw [decoupling, if_pos h1]
    exact div_neg_of_neg_of_pos (by linarith) h1

/-- Witness for C8: the drifting session has positive decoupling, the
reverse session negative decoupling. -/
theorem claim_C8_witness : 0 < decoupling sessDrift ∧ decoupling sessRev < 0 :=
  ⟨(claim_C8 sessDrift).2.1
      (by
        norm_num [ef1, hr1, h1_rr, splitRR, mid_time_ms, rr_data, mean, p1, mid_p,
          power_samples, avg_hr, sessDrift, List.filterMap_cons, List.filter_cons]
        simp)
      (by
        norm_num [ef1, ef2, hr1, hr2, h1_rr, h2_rr, splitRR, mid_time_ms, rr_data, mean,
          p1, p2, mid_p, power_samples, avg_hr, sessDrift, List.filterMap_cons, List.filter_cons]
        simp
        norm_num),
   (claim_C8 sessRev).2.2
      (by
        norm_num [ef1, hr1, h1_rr, splitRR, mid_time_ms, rr_data, mean, p1, mid_p,
          power_samples, avg_hr, sessRev, List.filterMap_cons, List.filter_cons]
        simp)
      (by
        norm_num [ef1, ef2, hr1, hr2, h1_rr, h2_rr, splitRR, mid_time_ms, rr_data, mean,
          p1, p2, mid_p, power_samples, avg_hr, sessRev, List.filterMap_cons, List.filter_cons]
        simp
        norm_num)⟩

/-- C9: with zero ascent or zero distance the grade is 0 and the adjusted
power is exactly the mean of the power samples. -/
theorem claim_C9 (s : SessionData) (h : s.ascent = 0 ∨ s.distance = 0) :
    grade s = 0 ∧ watt_adj s = mean (power_samples s) := by
  have hg : grade s = 0 := by
    rcases h with h | h
    · rw [grade, h]
      split_ifs
      · rw [zero_div]
      · rfl
    · rw [grade, h]
      simp
  refine ⟨hg, ?_⟩
  rw [watt_adj, hg, avg_power]
  ring

/-- Witness for C9 at the Scenario-A session (zero ascent and distance). -/
theorem claim_C9_witness : grade sessA = 0 ∧ watt_adj sessA = mean (power_samples sessA) :=
  claim_C9 sessA (Or.inl rfl)

/-- C10: a valid session with exactly one power sample still yields a
result (no exception), and its decoupling is 0: the first-half slice is
empty, numpy's mean of it (NaN, modelled 0) fails the `ef1 > 0` test. -/
theorem claim_C10 (s : SessionData) (p : AthleteParams)
    (h1 : (power_samples s).length = 1) (h2 : rr_data s ≠ []) :
    ∃ r, process_running_file_from_data s p = some r ∧
      decoupling s = 0 ∧ r.Decoupling = 0 := by
  have hne : power_samples s ≠ [] := by
    intro h
    rw [h] at h1
    simp at h1
  have hmid : mid_p s = 0 := by rw [mid_p, h1]
  have hp1 : p1 s = 0 := by
    rw [p1, if_pos hne, hmid]
    simp [mean]
  have hef1 : ef1 s = 0 := by
    rw [ef1]
    split_ifs with h
    · rw [hp1, zero_div]
    · rfl
  have hdec : decoupling s = 0 := by
    rw [decoupling, hef1]
    simp
  refine ⟨⟨pyRound 1 (watt_adj s), pyRound 1 (avg_hr s), pyRound 1 (hrr_pct s p * 100),
           pyRound 2 (decoupling s * 100), pyRoundR 3 (score s p),
           pyRound 0 (s.duration_sec / 60)⟩, ?_, hdec, ?_⟩
  · rw [process_running_file_from_data, if_neg hne, if_neg h2]
  · show pyRound 2 (decoupling s * 100) = 0
    rw [hdec]
    norm_num [pyRound, roundHalfEven]

/-- Witness for C10 at a concrete one-power-sample session. -/
theorem claim_C10_witness :
    ∃ r, process_running_file_from_data sessOne paramsA = some r ∧
      decoupling sessOne = 0 ∧ r.Decoupling = 0 :=
  claim_C10 sessOne paramsA (by decide) (by decide)

/-- C3 (Scenario A): for the constant 200 W / 500 ms session with
`distance = 0`, `duration = 3600` and parameters
`{weight 70, rest 60, max 180, offset 2}`: adjusted watts 200, average HR
120, `hrr_pct = 1/2`, zero decoupling, efficiency ratio `(200/70)/0.5`,
zero penalty, and a final rounded score of `3.714`. -/
theorem claim_C3 :
    watt_adj sessA = 200 ∧ avg_hr sessA = 120 ∧ hrr_pct sessA paramsA = 1 / 2 ∧
    decoupling sessA = 0 ∧ eff_per_hrr sessA paramsA = 200 / 70 / (1 / 2) ∧
    d_penalty sessA = 0 ∧
    ∃ r, process_running_file_from_data sessA paramsA = some r ∧ r.SCORE_2 = 3.714 := by
  have hwatt : watt_adj sessA = 200 := by
    norm_num [watt_adj, avg_power, mean, power_samples, grade, sessA, List.filterMap_cons]
  have hhr : avg_hr sessA = 120 := by
    norm_num [avg_hr, mean, rr_data, sessA, List.filter_cons]
  have hpct : hrr_pct sessA paramsA = 1 / 2 := by
    norm_num [hrr_pct, hrr_range, paramsA, hhr]
  have hdec : decoupling sessA = 0 := by
    norm_num [decoupling, ef1, ef2, hr1, hr2, h1_rr, h2_rr, splitRR, mid_time_ms, rr_data,
      mean, p1, p2, mid_p, power_samples, avg_hr, sessA, List.filterMap_cons, List.filter_cons]
  have heff : eff_per_hrr sessA paramsA = 200 / 70 / (1 / 2) := by
    have hwkg : w_kg sessA paramsA = 200 / 70 := by
      rw [w_kg, hwatt]
      norm_num [paramsA]
    rw [eff_per_hrr, hpct, hwkg]
    norm_num
  have ht : t_hours sessA = 1 := by norm_num [t_hours, sessA]
  have hdpen : d_penalty sessA = 0 := by
    rw [d_penalty, ht, hdec]
    norm_num
  have hsc : score sessA paramsA = ((26 / 7 : ℚ) : ℝ) := by
    have hoff : paramsA.base_offset = 2 := rfl
    rw [score, heff, hdpen, hoff]
    push_cast
    norm_num
  have hne1 : power_samples sessA ≠ [] := by decide
  have hne2 : rr_data sessA ≠ [] := by decide
  refine ⟨hwatt, hhr, hpct, hdec, heff, hdpen,
    ⟨⟨pyRound 1 (watt_adj sessA), pyRound 1 (avg_hr sessA),
      pyRound 1 (hrr_pct sessA paramsA * 100), pyRound 2 (decoupling sessA * 100),
      pyRoundR 3 (score sessA paramsA), pyRound 0 (sessA.duration_sec / 60)⟩, ?_, ?_⟩⟩
  · rw [process_running_file_from_data, if_neg hne1, if_neg hne2]
  · show pyRoundR 3 (score sessA paramsA) = 3.714
    rw [hsc, pyRoundR_ratCast]
    norm_num [pyRound, roundHalfEven]

/-- C1 (amended): each field of a produced result row is the rounded raw
value — adjusted watts, average HR and the HRR percentage to 1 decimal,
decoupling percentage to 2 decimals, score to 3 decimals, and the duration
in minutes to 0 decimals (not 1). -/
theorem claim_C1_amended (s : SessionData) (p : AthleteParams) (r : ScoreResult)
    (h : process_running_file_from_data s p = some r) :
    r.Watt_Adj = pyRound 1 (watt_adj s) ∧
    r.HR_Avg = pyRound 1 (avg_hr s) ∧
    r.HRRpct = pyRound 1 (hrr_pct s p * 100) ∧
    r.Decoupling = pyRound 2 (decoupling s * 100) ∧
    r.SCORE_2 = pyRoundR 3 (score s p) ∧
    r.Duration_Min = pyRound 0 (s.duration_sec / 60) := by
  rw [process_running_file_from_data] at h
  by_cases h1 : power_samples s = []
  · rw [if_pos h1] at h
    exact Option.noConfusion h
  · rw [if_neg h1] at h
    by_cases h2 : rr_data s = []
    · rw [if_pos h2] at h
      exact Option.noConfusion h
    · rw [if_neg h2] at h
      injection h with h
      rw [← h]
      exact ⟨rfl, rfl, rfl, rfl, rfl, rfl⟩

/-- Counterexample to C1 as stated: on the 90-second session the
`Duration_Min` field is `2` (0-decimal rounding of 1.5 minutes), while the
claimed 1-decimal rounding of the duration is `1.5`. -/
theorem claim_C1_counterexample :
    (process_running_file_from_data sessDur paramsA).map (fun r => r.Duration_Min) = some 2 ∧
    pyRound 1 (sessDur.duration_sec / 60) = 3 / 2 ∧ (2 : ℚ) ≠ 3 / 2 := by
  have hne1 : power_samples sessDur ≠ [] := by decide
  have hne2 : rr_data sessDur ≠ [] := by decide
  refine ⟨?_, ?_, by norm_num⟩
  · rw [process_running_file_from_data, if_neg hne1, if_neg hne2, Option.map_some']
    congr 1
    norm_num [pyRound, roundHalfEven, sessDur]
  · norm_num [pyRound, roundHalfEven, sessDur]

/-- Witness for the amended C1 at the 90-second session. -/
theorem claim_C1_witness :
    ∃ r, process_running_file_from_data sessDur paramsA = some r ∧
      r.Watt_Adj = pyRound 1 (watt_adj sessDur) ∧
      r.Duration_Min = pyRound 0 (sessDur.duration_sec / 60) := by
  have hne1 : power_samples sessDur ≠ [] := by decide
  have hne2 : rr_data sessDur ≠ [] := by decide
  have h : process_running_file_from_data sessDur paramsA = some
      ⟨pyRound 1 (watt_adj sessDur), pyRound 1 (avg_hr sessDur),
       pyRound 1 (hrr_pct sessDur paramsA * 100), pyRound 2 (decoupling sessDur * 100),
       pyRoundR 3 (score sessDur paramsA), pyRound 0 (sessDur.duration_sec / 60)⟩ := by
    rw [process_running_file_from_data, if_neg hne1, if_neg hne2]
  exact ⟨_, h, (claim_C1_amended sessDur paramsA _ h).1,
    (claim_C1_amended sessDur paramsA _ h).2.2.2.2.2⟩

/-- C2 (amended): the normalizer produces exactly `n - 1` synthetic
intervals from `n = min_length` heart-rate samples, and each produced
interval is the `int(...)`-truncation of `1000 * 60 / avg(bpm[i-1], bpm[i])`
— the truncation is what the original claim omits. -/
theorem claim_C2_amended (st : StravaStreams) (i : ℕ) (h1 : 1 ≤ i) (h2 : i < min_length st) :
    (strava_rr st).length = min_length st - 1 ∧
    (strava_rr st).getD (i - 1) 0 =
      ((pyInt (1000 * 60 / ((st.heartrate.getD (i - 1) 0 + st.heartrate.getD i 0) / 2)) : ℤ) : ℚ) := by
  have harg : ∀ x : ℚ, 1000 / (x / 2 / 60) = 1000 * 60 / (x / 2) := by
    intro x
    rw [div_div, div_div_eq_mul_div, div_div_eq_mul_div]
    ring_nf
  constructor
  · rw [strava_rr, List.length_map, List.length_range']
  · have hb : i - 1 < min_length st - 1 := by omega
    have hidx : (List.range' 1 (min_length st - 1))[i - 1]? = some (1 + (i - 1)) := by
      rw [List.getElem?_eq_getElem (by simpa using hb)]
      simp [List.getElem_range']
    have h1i : 1 + (i - 1) = i := by omega
    rw [List.getD_eq_getElem?_getD, strava_rr, List.getElem?_map, hidx, h1i]
    simp only [Option.map_some', Option.getD_some]
    exact congrArg (fun z : ℤ => (z : ℚ)) (congrArg pyInt (harg _))

/-- Counterexample to C2 as stated: with heart-rate samples 120 and 121
the produced interval is the integer `497`, not the exact value
`1000 * 60 / 120.5 = 120000/241`. -/
theorem claim_C2_counterexample :
    strava_rr stC2 = [497] ∧ ((497 : ℚ) ≠ 1000 * 60 / (((120 : ℚ) + 121) / 2)) := by
  constructor
  · norm_num [strava_rr, min_length, stC2, pyInt, List.range',
      List.getD_cons_zero, List.getD_cons_succ]
  · norm_num

/-- Witness for the amended C2 at the two-sample streams, `i = 1`. -/
theorem claim_C2_witness :
    (strava_rr stC2).length = min_length stC2 - 1 ∧
    (strava_rr stC2).getD (1 - 1) 0 =
      ((pyInt (1000 * 60 / ((stC2.heartrate.getD (1 - 1) 0 + stC2.heartrate.getD 1 0) / 2)) : ℤ) : ℚ) :=
  claim_C2_amended stC2 1 (by norm_num) (by norm_num [min_length, stC2])

/-- C7: the normalizer depends only on the common prefix of length
`min_length` of the three streams (truncating them there changes nothing),
and it produces exactly `min_length` power samples and `min_length - 1`
synthetic intervals — the remainder is discarded with no error. -/
theorem claim_C7 (st : StravaStreams) :
    strava_samples st = strava_samples
      ⟨st.time.take (min_length st), st.watts.take (min_length st),
       st.heartrate.take (min_length st)⟩ ∧
    strava_rr st = strava_rr
      ⟨st.time.take (min_length st), st.watts.take (min_length st),
       st.heartrate.take (min_length st)⟩ ∧
    (strava_samples st).length = min_length st ∧
    (strava_rr st).length = min_length st - 1 := by
  have ht : min_length st ≤ st.time.length :=
    le_trans (Nat.min_le_left _ _) (Nat.min_le_left _ _)
  have hw : min_length st ≤ st.watts.length :=
    le_trans (Nat.min_le_left _ _) (Nat.min_le_right _ _)
  have hh : min_length st ≤ st.heartrate.length := Nat.min_le_right _ _
  have hm : min_length ⟨st.time.take (min_length st), st.watts.take (min_length st),
      st.heartrate.take (min_length st)⟩ = min_length st := by
    rw [min_length]
    dsimp only
    rw [List.length_take, List.length_take, List.length_take]
    omega
  refine ⟨?_, ?_, ?_, ?_⟩
  · rw [strava_samples, strava_samples, hm]
    dsimp only
    rw [List.take_take, min_self]
  · rw [strava_rr, strava_rr, hm]
    dsimp only
    apply List.map_eq_map_iff.mpr
    intro i hi
    have hib : 1 ≤ i ∧ i < 1 + (min_length st - 1) := List.mem_range'_1.mp hi
    have hgd : ∀ j, j < min_length st →
        (st.heartrate.take (min_length st)).getD j 0 = st.heartrate.getD j 0 := by
      intro j hj
      rw [List.getD_eq_getElem?_getD, List.getD_eq_getElem?_getD, List.getElem?_take_of_lt hj]
    rw [hgd (i - 1) (by omega), hgd i (by omega)]
  · rw [strava_samples, List.length_map, List.length_take]
    omega
  · rw [strava_rr, List.length_map, List.length_range']

end Corsa
